import Mathlib

/-!
Verification of the nnUNet configuration object
(`SlicerNNUNetLib/Parameter.py`).

The Python class `Parameter` is a value object holding inference settings,
with validation against an on-disk model layout (`isValid`), projection to a
CLI argument list (`asArgList`), reading of the dataset label file
(`readSegmentIdsAndLabelsFromDatasetFile`), and persistence to a key/value
settings store (`toSettings` / `fromSettings`).

Shallow embedding conventions:
* Filesystem paths (`pathlib.Path`) are lists of path components
  (relative paths; a component never contains a slash, is never empty and
  never `"."`, mirroring how `pathlib` normalises such components away).
  `Path()` — the default `modelPath` — is the empty list, whose string form
  is `"."`, exactly as in `pathlib`.
* The filesystem visible to the code is a value of type `FS`: the list of
  all existing paths (files and directories) in the order a recursive
  traversal (`rglob`) enumerates them, together with, for each path, the
  JSON value that `json.loads` would produce from the file text found there.
* Raising a Python exception is modelled by `Except.error` carrying the
  exception text; a normal return is `Except.ok`.
* `torch.cuda.is_available()` is an environment fact, passed to `asArgList`
  as the boolean `cudaAvailable`.
* `stepSize` is a Python float; no arithmetic is ever performed on it in
  this module (it is only stored, serialised and placed in the argument
  list), so its value is embedded as a rational number.
-/

/-! ### Paths -/

/-- A `pathlib` path, as its list of components (`PurePath.parts`). -/
abbrev PyPath := List String

namespace PyPath

/-- `PurePath.name`: the final component, `""` for an empty path. -/
def name (p : PyPath) : String := p.getLast?.getD ""

/-- `PurePath.parent`: drop the final component (`Path(".").parent == Path(".")`). -/
def parent (p : PyPath) : PyPath := p.dropLast

/-- `PurePath.joinpath` with a single-component argument. -/
def joinpath (p : PyPath) (c : String) : PyPath := p ++ [c]

/-- Components joined by `/`. -/
def strAux : PyPath → String
  | [] => ""
  | [c] => c
  | c :: rest => c ++ "/" ++ strAux rest

/-- `str(path)` / `PurePath.as_posix()`: `"."` for the empty path, else the
components joined by `/`. -/
def str (p : PyPath) : String :=
  if p = [] then "." else strAux p

/-- Split a character list at `/` separators. -/
def splitSlash : List Char → List Char → List String
  | [], acc => [String.mk acc.reverse]
  | c :: cs, acc =>
    if c = '/' then String.mk acc.reverse :: splitSlash cs []
    else splitSlash cs (c :: acc)

/-- `Path(s)` for a relative string `s`: split on `/`, dropping empty and
`"."` components, as `pathlib` normalisation does. -/
def ofString (s : String) : PyPath :=
  (splitSlash s.data []).filter (fun c => c ≠ "" && c ≠ ".")

/-- A well-formed relative path: components are nonempty, are not `"."` and
contain no slash.  Every path `pathlib` builds from clean user input is of
this shape. -/
def WF (p : PyPath) : Bool :=
  p.all (fun c => c ≠ "" && c ≠ "." && !(c.data.contains '/'))

/-- Python truthiness of a `pathlib.Path`: `PurePath` defines neither
`__bool__` nor `__len__`, so `bool(path)` falls back to the object default
and is `True` for every path, including `Path()`. -/
def truthy (_ : PyPath) : Bool := true

end PyPath

/-! ### Python / JSON values -/

/-- A decoded Python value, covering what `json.loads` can produce plus
`pathlib.Path` objects (created by the `_PathEncoder.decodePath` hook). -/
inductive PyVal where
  | null : PyVal
  | bool : Bool → PyVal
  | int : Int → PyVal
  | float : Rat → PyVal
  | str : String → PyVal
  | list : List PyVal → PyVal
  | obj : List (String × PyVal) → PyVal
  | path : PyPath → PyVal
deriving BEq, Repr

/-- Python `str()` / f-string rendering of a value, exact for the scalar
shapes that occur in the claims (`int`, `str`, `bool`, `None`, `Path`).
Container and float rendering is not exercised by any claim and is given a
placeholder. -/
def pyStr : PyVal → String
  | .null => "None"
  | .bool true => "True"
  | .bool false => "False"
  | .int n => toString n
  | .float q => toString q
  | .str s => s
  | .list _ => "<list>"
  | .obj _ => "<dict>"
  | .path p => p.str

/-! ### The filesystem -/

/-- The filesystem state the code runs against. -/
structure FS where
  /-- Every existing path (file or directory), in the order a recursive
  directory traversal (`Path.rglob`) yields entries. -/
  entries : List PyPath
  /-- For each path, the value `json.loads` produces from the text stored
  there (consulted only for the `dataset.json` file). -/
  content : PyPath → PyVal

/-- `path.exists()`. -/
def FS.exists (fs : FS) (p : PyPath) : Bool := fs.entries.contains p

/-- Whether `q` lies strictly below `base` (a proper descendant). -/
def FS.under (base q : PyPath) : Bool :=
  base.isPrefixOf q && base.length < q.length

/-- `next(base.rglob(nm), None)`-style first match: the first traversal
entry strictly below `base` whose final component is `nm`. -/
def FS.rglobFirst (fs : FS) (base : PyPath) (nm : String) : Option PyPath :=
  (fs.entries.filter (fun q => FS.under base q && q.name = nm)).head?

/-! ### The Parameter record -/

/-- The `Parameter` dataclass, with its declared field defaults. -/
structure Parameter where
  folds : String := ""
  device : String := "cuda"
  stepSize : Rat := 0.5
  disableTta : Bool := true
  nProcessPreprocessing : Int := 1
  nProcessSegmentationExport : Int := 1
  checkPointName : String := ""
  modelPath : PyPath := []
deriving DecidableEq, Repr

/-- `Parameter()`: a default-constructed instance. -/
def Parameter.init : Parameter := {}

/-! ### Python string primitives

Implemented by structural recursion over character lists so that closed
evaluations reduce definitionally. -/

/-- Python `str.strip()` (ASCII whitespace; the module only ever strips
user-typed fold lists). -/
def pyStrip (s : String) : String :=
  String.mk (((s.data.dropWhile Char.isWhitespace).reverse.dropWhile
    Char.isWhitespace).reverse)

/-- `str.split(",")`, left to right. -/
def splitComma : List Char → List Char → List String
  | [], acc => [String.mk acc.reverse]
  | ',' :: cs, acc => String.mk acc.reverse :: splitComma cs []
  | c :: cs, acc => splitComma cs (c :: acc)

/-- `str.split("__")`: cut at each non-overlapping occurrence of `__`,
scanning left to right. -/
def splitDunder : List Char → List Char → List String
  | [], acc => [String.mk acc.reverse]
  | '_' :: '_' :: cs, acc => String.mk acc.reverse :: splitDunder cs []
  | c :: cs, acc => splitDunder cs (c :: acc)

/-! ### Python `int(str)` -/

/-- Digit/underscore body of an integer literal, as `int()` accepts it:
nonempty, starts and ends with a digit, no two consecutive underscores,
every character a digit or `_` (PEP 515 grouping). -/
def intBodyOk (cs : List Char) : Bool :=
  cs ≠ [] &&
  (cs.head?.getD '_').isDigit &&
  (cs.getLast?.getD '_').isDigit &&
  cs.all (fun c => c.isDigit || c = '_') &&
  (cs.zip cs.tail).all (fun cc => !(cc.1 = '_' && cc.2 = '_'))

/-- Numeric value of a digit list (underscores already removed). -/
def digitsVal (cs : List Char) : Nat :=
  cs.foldl (fun a c => a * 10 + (c.toNat - 48)) 0

/-- Python `int(s)`: strip surrounding whitespace, optional sign, base-10
digits with underscore grouping; `none` models the `ValueError` raised on
any other input. -/
def pyInt? (s : String) : Option Int :=
  let body : List Char → Option Nat := fun cs =>
    if intBodyOk cs then some (digitsVal (cs.filter (fun c => c ≠ '_'))) else none
  match (pyStrip s).data with
  | '+' :: rest => (body rest).map (fun n => (n : Int))
  | '-' :: rest => (body rest).map (fun n => -(n : Int))
  | cs => (body cs).map (fun n => (n : Int))

example : pyInt? " 12 " = some 12 := by decide
example : pyInt? "-3" = some (-3) := by decide
example : pyInt? "1_0" = some 10 := by decide
example : pyInt? "" = none := by decide
example : pyInt? "1__0" = none := by decide
example : pyInt? "x" = none := by decide

/-! ### Error message texts (the f-strings of `Parameter.py`) -/

/-- Python `f"{listOfInts}"` rendering, e.g. `[1, 2]`. -/
def pyReprIntList (l : List Int) : String :=
  "[" ++ String.intercalate ", " (l.map toString) ++ "]"

/-- Reason for check 1 of `isValid`. -/
def datasetMissingReason (p : Parameter) : String :=
  "Dataset.json file is missing. Provided model dir :\n" ++ p.modelPath.str

/-- Reason for check 2 of `isValid`. -/
def missingFoldsReason (l : List Int) : String :=
  "Model folder is missing the following folds : " ++ pyReprIntList l ++ "."

/-- Reason for check 3 of `isValid` (note: it interpolates the raw
`checkPointName` field, not the effective checkpoint name). -/
def invalidWeightsReason (p : Parameter) (l : List Int) : String :=
  "Following model folds don\x27t contain " ++ p.checkPointName ++
    " weights : " ++ pyReprIntList l ++ "."

/-- Reason for check 4 of `isValid` (two adjacent string literals in the
source, hence the double space). -/
def invalidConfigFolderReason : String :=
  "Invalid nnUNet configuration folder." ++
    "  Expected folder name such as <trainer_name>__<plan_name>__<conf_name>"

namespace Parameter

/-! ### Derived paths and validation -/

/-- `_getCheckpointName`: `self.checkPointName or "checkpoint_final.pth"`. -/
def getCheckpointName (p : Parameter) : String :=
  if p.checkPointName ≠ "" then p.checkPointName else "checkpoint_final.pth"

/-- `_datasetPath`: first `dataset.json` found by `rglob` under `modelPath`
(`None` if there is none); the `if self.modelPath` guard uses Python path
truthiness. -/
def datasetPath (p : Parameter) (fs : FS) : Option PyPath :=
  if p.modelPath.truthy then fs.rglobFirst p.modelPath "dataset.json" else none

/-- `_isDatasetPathValid`. -/
def isDatasetPathValid (p : Parameter) (fs : FS) : Bool :=
  (p.datasetPath fs).isSome

/-- `_configurationFolder` (`_datasetPath.parent`), `none` when
`_datasetPath` is `None` (accessing `.parent` would then raise). -/
def configurationFolder (p : Parameter) (fs : FS) : Option PyPath :=
  (p.datasetPath fs).map PyPath.parent

/-- `_datasetFolder` (`_configurationFolder.parent`). -/
def datasetFolder (p : Parameter) (fs : FS) : Option PyPath :=
  (p.configurationFolder fs).map PyPath.parent

/-- `_datasetName` (`_datasetFolder.name`). -/
def datasetName (p : Parameter) (fs : FS) : Option String :=
  (p.datasetFolder fs).map PyPath.name

/-- `_configurationNameParts` (`_configurationFolder.name.split("__")`). -/
def configurationNameParts (p : Parameter) (fs : FS) : Option (List String) :=
  (p.configurationFolder fs).map (fun cf => splitDunder cf.name.data [])

/-- `_foldsAsList`: `[int(f) for f in self.folds.strip().split(",")]` when
`folds` is truthy (nonempty), else `[0]`.  An `int()` failure is the raised
`ValueError`. -/
def foldsAsList (p : Parameter) : Except String (List Int) :=
  if p.folds ≠ "" then
    (splitComma (pyStrip p.folds).data []).mapM (fun f =>
      match pyInt? f with
      | some n => Except.ok n
      | none => Except.error ("ValueError: invalid literal for int() with base 10: " ++ f))
  else Except.ok [0]

/-- `_getFoldPaths`: pair each requested fold with
`configurationFolder / fold_<i>`.  The comprehension first runs
`_foldsAsList()` (which may raise), then evaluates `_configurationFolder`
per element (raising `AttributeError` when `_datasetPath` is `None`). -/
def getFoldPaths (p : Parameter) (fs : FS) : Except String (List (Int × PyPath)) := do
  let fl ← p.foldsAsList
  fl.mapM (fun fold =>
    match p.configurationFolder fs with
    | some cf => Except.ok (fold, cf.joinpath ("fold_" ++ toString fold))
    | none => Except.error "AttributeError: NoneType object has no attribute parent")

/-- `_getMissingFolds`: folds whose folder does not exist. -/
def getMissingFolds (p : Parameter) (fs : FS) : Except String (List Int) :=
  (p.getFoldPaths fs).map (fun l =>
    (l.filter (fun fp => !(fs.exists fp.2))).map Prod.fst)

/-- `_getFoldsWithInvalidWeights`: folds whose folder lacks the checkpoint
file. -/
def getFoldsWithInvalidWeights (p : Parameter) (fs : FS) : Except String (List Int) :=
  (p.getFoldPaths fs).map (fun l =>
    (l.filter (fun fp => !(fs.exists (fp.2.joinpath p.getCheckpointName)))).map Prod.fst)

/-- `isValid`: the four checks, in source order, with the source's reason
strings. -/
def isValid (p : Parameter) (fs : FS) : Except String (Bool × String) :=
  if !(p.isDatasetPathValid fs) then
    Except.ok (false, datasetMissingReason p)
  else do
    let missingFolds ← p.getMissingFolds fs
    if missingFolds ≠ [] then
      Except.ok (false, missingFoldsReason missingFolds)
    else do
      let foldsWithInvalidWeights ← p.getFoldsWithInvalidWeights fs
      if foldsWithInvalidWeights ≠ [] then
        Except.ok (false, invalidWeightsReason p foldsWithInvalidWeights)
      else
        match p.configurationNameParts fs with
        | some parts =>
          if parts.length ≠ 3 then
            Except.ok (false, invalidConfigFolderReason)
          else
            Except.ok (true, "")
        | none => Except.error "AttributeError: NoneType object has no attribute parent"

/-- `readSegmentIdsAndLabelsFromDatasetFile`: `None` when no `dataset.json`
is found; otherwise `[(f"Segment_{v}", k) for k, v in labels.items()]`
where `labels = dataset_dict.get("labels")`.  When the top-level JSON value
is not an object, `.get` raises; when `"labels"` is absent (`.get` gives
`None`) or not an object, `.items()` raises. -/
def readSegmentIdsAndLabelsFromDatasetFile (p : Parameter) (fs : FS) :
    Except String (Option (List (String × String))) :=
  match p.datasetPath fs with
  | none => Except.ok none
  | some dp =>
    match fs.content dp with
    | PyVal.obj kvs =>
      match kvs.lookup "labels" with
      | none => Except.error "AttributeError: NoneType object has no attribute items"
      | some (PyVal.obj lbls) =>
        Except.ok (some (lbls.map (fun kv => ("Segment_" ++ pyStr kv.2, kv.1))))
      | some _ => Except.error "AttributeError: object has no attribute items"
    | _ => Except.error "AttributeError: object has no attribute get"

end Parameter

/-! ### The CLI argument list -/

/-- One element of the heterogeneous Python argument list built by
`asArgList` (strings, raw ints for `-npp`/`-nps`, the raw float for
`-step_size`). -/
inductive ArgV where
  | str : String → ArgV
  | int : Int → ArgV
  | float : Rat → ArgV
deriving DecidableEq, Repr

/-- `asArgList(inDir, outDir)`.  `cudaAvailable` is
`torch.cuda.is_available()` on the running machine.  Raises
`RuntimeError` when `isValid()` is false. -/
def Parameter.asArgList (p : Parameter) (fs : FS) (cudaAvailable : Bool)
    (inDir outDir : PyPath) : Except String (List ArgV) := do
  let vr ← p.isValid fs
  if !vr.1 then
    Except.error ("Invalid nnUNet configuration. " ++ vr.2)
  else
    let device := if cudaAvailable then p.device else "cpu"
    match p.datasetName fs, p.configurationNameParts fs with
    | some dsName, some parts =>
      match parts.head?, parts.get? 1, parts.getLast? with
      | some tr, some pl, some conf =>
        let fl ← p.foldsAsList
        Except.ok (
          [ArgV.str "-i", ArgV.str inDir.str,
           ArgV.str "-o", ArgV.str outDir.str,
           ArgV.str "-d", ArgV.str dsName,
           ArgV.str "-tr", ArgV.str tr,
           ArgV.str "-p", ArgV.str pl,
           ArgV.str "-c", ArgV.str conf,
           ArgV.str "-f"] ++ fl.map (fun f => ArgV.str (toString f)) ++
          [ArgV.str "-npp", ArgV.int p.nProcessPreprocessing,
           ArgV.str "-nps", ArgV.int p.nProcessSegmentationExport,
           ArgV.str "-step_size", ArgV.float p.stepSize,
           ArgV.str "-device", ArgV.str device,
           ArgV.str "-chk", ArgV.str p.getCheckpointName] ++
          (if p.disableTta then [ArgV.str "--disable_tta"] else []))
      | _, _, _ => Except.error "IndexError: list index out of range"
    | _, _ => Except.error "AttributeError: NoneType object has no attribute parent"

/-! ### Settings persistence -/

/-- The `QSettings` store, as an association list from keys to the JSON
value parsed from the stored text (`setValue` prepends, `value` takes the
first match).  An absent key stands for both a missing entry and the empty
default string `""` that `settings.value(key, "")` returns then
(`if val` rejects both the same way); a stored text that is not valid JSON
is outside this model. -/
abbrev Settings := List (String × PyVal)

/-- `_defaultSettingsKey()`. -/
def defaultSettingsKey : String := "SlicerNNUNet/Parameter"

/-- `key or cls._defaultSettingsKey()` (empty string is falsy). -/
def effKey (key : String) : String :=
  if key ≠ "" then key else defaultSettingsKey

/-- `json.dumps(self.asDict(), cls=_PathEncoder)`, as the JSON value
written: each field in declaration order, the `Path`-typed `modelPath`
rendered by `_PathEncoder.default` as the tagged object
`("_path": str(path))`. -/
def Parameter.dumpedDict (p : Parameter) : PyVal :=
  PyVal.obj [
    ("folds", PyVal.str p.folds),
    ("device", PyVal.str p.device),
    ("stepSize", PyVal.float p.stepSize),
    ("disableTta", PyVal.bool p.disableTta),
    ("nProcessPreprocessing", PyVal.int p.nProcessPreprocessing),
    ("nProcessSegmentationExport", PyVal.int p.nProcessSegmentationExport),
    ("checkPointName", PyVal.str p.checkPointName),
    ("modelPath", PyVal.obj [("_path", PyVal.str p.modelPath.str)])]

/-- `toSettings`: store the dumped JSON under the (defaulted) key. -/
def Parameter.toSettings (p : Parameter) (settings : Settings) (key : String) :
    Settings :=
  (effKey key, p.dumpedDict) :: settings

/-- `_PathEncoder.decodePath`, the `object_hook`: an object containing a
`"_path"` key becomes `Path(obj["_path"])` (raising `TypeError` when that
value is not a string); any other object is returned unchanged. -/
def decodePath (kvs : List (String × PyVal)) : Except String PyVal :=
  if (kvs.lookup "_path").isSome then
    match kvs.lookup "_path" with
    | some (PyVal.str s) => Except.ok (PyVal.path (PyPath.ofString s))
    | _ => Except.error "TypeError: argument should be a str"
  else Except.ok (PyVal.obj kvs)

mutual

/-- `json.loads(..., object_hook=decodePath)`: the hook runs on every
decoded object, innermost first. -/
def applyHook : PyVal → Except String PyVal
  | PyVal.list xs => (applyHookList xs).map PyVal.list
  | PyVal.obj kvs => (applyHookObj kvs).bind decodePath
  | v => Except.ok v

/-- `applyHook` on the elements of an array. -/
def applyHookList : List PyVal → Except String (List PyVal)
  | [] => Except.ok []
  | v :: vs => do
    let v' ← applyHook v
    let vs' ← applyHookList vs
    Except.ok (v' :: vs')

/-- `applyHook` on the values of an object. -/
def applyHookObj : List (String × PyVal) → Except String (List (String × PyVal))
  | [] => Except.ok []
  | (k, v) :: kvs => do
    let v' ← applyHook v
    let kvs' ← applyHookObj kvs
    Except.ok ((k, v') :: kvs')

end

/-- Modelled from the spec: `parameterPack.setValue(name, value)` lives in
the external `slicer.parameterNodeWrapper` package, not in this repository.
Per the spec's restore semantics ("unknown keys or keys whose stored value
cannot be assigned to the corresponding field are silently skipped"),
assignment succeeds exactly when the name is a declared field and the value
has the field's declared type (an int is accepted for the float field
`stepSize`, as in Python); otherwise it raises the `TypeError` that
`fromSettings` catches. -/
def Parameter.setValue (inst : Parameter) (k : String) (v : PyVal) :
    Except String Parameter :=
  match k, v with
  | "folds", PyVal.str s => Except.ok { inst with folds := s }
  | "device", PyVal.str s => Except.ok { inst with device := s }
  | "stepSize", PyVal.float q => Except.ok { inst with stepSize := q }
  | "stepSize", PyVal.int n => Except.ok { inst with stepSize := (n : Rat) }
  | "disableTta", PyVal.bool b => Except.ok { inst with disableTta := b }
  | "nProcessPreprocessing", PyVal.int n =>
      Except.ok { inst with nProcessPreprocessing := n }
  | "nProcessSegmentationExport", PyVal.int n =>
      Except.ok { inst with nProcessSegmentationExport := n }
  | "checkPointName", PyVal.str s => Except.ok { inst with checkPointName := s }
  | "modelPath", PyVal.path pth => Except.ok { inst with modelPath := pth }
  | _, _ => Except.error "TypeError"

/-- `fromSettings`: read the stored value (defaults when absent), decode it
with the path hook, then assign each item, skipping those whose `setValue`
raises `TypeError` (the only error `Parameter.setValue` produces).
Iterating `.items()` over a non-dict decoded value raises. -/
def Parameter.fromSettings (settings : Settings) (key : String) :
    Except String Parameter :=
  match settings.lookup (effKey key) with
  | none => Except.ok Parameter.init
  | some stored => do
    let hooked ← applyHook stored
    match hooked with
    | PyVal.obj kvs =>
      Except.ok (kvs.foldl (fun inst kv =>
        match inst.setValue kv.1 kv.2 with
        | Except.ok inst' => inst'
        | Except.error _ => inst) Parameter.init)
    | _ => Except.error "AttributeError: object has no attribute items"

/-! ### Helper lemmas -/

theorem ok_bind {ε α β : Type} (a : α) (k : α → Except ε β) :
    (Except.ok a >>= k) = k a := rfl

theorem error_bind {ε α β : Type} (e : ε) (k : α → Except ε β) :
    ((Except.error e : Except ε α) >>= k) = Except.error e := rfl

namespace PyPath

theorem splitSlash_no_slash (cs : List Char) (h : '/' ∉ cs) :
    ∀ acc rest, splitSlash (cs ++ rest) acc = splitSlash rest (cs.reverse ++ acc) := by
  induction cs with
  | nil => intro acc rest; simp
  | cons c cs ih =>
    intro acc rest
    have hc : ¬(c = '/') := by
      intro hcc
      exact h (hcc ▸ List.mem_cons_self c cs)
    have h' : '/' ∉ cs := fun hm => h (List.mem_cons_of_mem _ hm)
    simp only [List.cons_append, splitSlash, hc, if_false, List.append_eq]
    rw [ih h']
    simp

theorem splitSlash_strAux (p : PyPath) (hne : p ≠ [])
    (hw : ∀ c ∈ p, '/' ∉ c.data) : splitSlash (strAux p).data [] = p := by
  induction p with
  | nil => exact absurd rfl hne
  | cons c rest ih =>
    cases rest with
    | nil =>
      have h := splitSlash_no_slash c.data (hw c (List.mem_cons_self c [])) [] []
      simpa [strAux, splitSlash] using h
    | cons c2 rest2 =>
      have hcs : '/' ∉ c.data := hw c (List.mem_cons_self _ _)
      have hdata : (strAux (c :: c2 :: rest2)).data =
          c.data ++ '/' :: (strAux (c2 :: rest2)).data := by
        simp [strAux, String.data_append]
      rw [hdata]
      have h1 := splitSlash_no_slash c.data hcs [] ('/' :: (strAux (c2 :: rest2)).data)
      rw [h1]
      have h2 : splitSlash ('/' :: (strAux (c2 :: rest2)).data) (c.data.reverse ++ []) =
          String.mk (c.data.reverse ++ []).reverse :: splitSlash (strAux (c2 :: rest2)).data [] := by
        simp [splitSlash]
      rw [h2, ih (by simp) (fun x hx => hw x (List.mem_cons_of_mem _ hx))]
      simp

theorem ofString_str (p : PyPath) (h : WF p = true) : ofString (str p) = p := by
  have hall : ∀ x ∈ p, (x ≠ "" ∧ x ≠ ".") ∧ '/' ∉ x.data := by
    intro x hx
    have hx' := List.all_eq_true.mp h x hx
    simp only [Bool.and_eq_true, Bool.not_eq_true', decide_eq_true_eq] at hx'
    refine ⟨hx'.1, fun hmem => ?_⟩
    have hc : x.data.contains '/' = true := List.elem_iff.mpr hmem
    rw [hx'.2] at hc
    exact Bool.noConfusion hc
  cases p with
  | nil => rfl
  | cons c rest =>
    have hsplit : splitSlash (strAux (c :: rest)).data [] = c :: rest :=
      splitSlash_strAux _ (by simp) (fun x hx => (hall x hx).2)
    have hstr : str (c :: rest) = strAux (c :: rest) := by simp [str]
    rw [ofString, hstr, hsplit]
    apply List.filter_eq_self.mpr
    intro a ha
    have ha' := (hall a ha).1
    simp only [Bool.and_eq_true, decide_eq_true_eq]
    exact ha'

end PyPath

theorem mapM_ok_of_all {α β : Type} (f : α → Except String β) (xs : List α)
    (h : ∀ x ∈ xs, ∃ y, f x = Except.ok y) : ∃ ys, xs.mapM f = Except.ok ys := by
  induction xs with
  | nil => exact ⟨[], rfl⟩
  | cons x xs ih =>
    obtain ⟨y, hy⟩ := h x (List.mem_cons_self x xs)
    obtain ⟨ys, hys⟩ := ih (fun a ha => h a (List.mem_cons_of_mem _ ha))
    refine ⟨y :: ys, ?_⟩
    rw [List.mapM_cons, hy, ok_bind, hys, ok_bind]
    rfl

theorem mapM_ok_of_map_some {α β : Type} (f : α → Except String β)
    (g : α → Option β) (hf : ∀ a b, g a = some b → f a = Except.ok b)
    (xs : List α) (ys : List β) (h : xs.map g = ys.map some) :
    xs.mapM f = Except.ok ys := by
  induction xs generalizing ys with
  | nil =>
    cases ys with
    | nil => rfl
    | cons y ys => simp at h
  | cons x xs ih =>
    cases ys with
    | nil => simp at h
    | cons y ys =>
      simp only [List.map_cons, List.cons.injEq] at h
      rw [List.mapM_cons, hf x y h.1, ok_bind, ih ys h.2, ok_bind]
      rfl

namespace Parameter

theorem isValid_of_dataset_invalid (p : Parameter) (fs : FS)
    (h : p.isDatasetPathValid fs = false) :
    p.isValid fs = Except.ok (false, datasetMissingReason p) := by
  simp [Parameter.isValid, h]

theorem isValid_of_missing_folds (p : Parameter) (fs : FS) (m : List Int)
    (h1 : p.isDatasetPathValid fs = true) (h2 : p.getMissingFolds fs = Except.ok m)
    (h3 : m ≠ []) :
    p.isValid fs = Except.ok (false, missingFoldsReason m) := by
  simp only [Parameter.isValid, h1, Bool.not_true, Bool.false_eq_true, if_false]
  rw [h2, ok_bind]
  simp [h3]

theorem isValid_of_invalid_weights (p : Parameter) (fs : FS) (w : List Int)
    (h1 : p.isDatasetPathValid fs = true) (h2 : p.getMissingFolds fs = Except.ok [])
    (h3 : p.getFoldsWithInvalidWeights fs = Except.ok w) (h4 : w ≠ []) :
    p.isValid fs = Except.ok (false, invalidWeightsReason p w) := by
  simp only [Parameter.isValid, h1, Bool.not_true, Bool.false_eq_true, if_false]
  rw [h2, ok_bind]
  simp only [ne_eq, not_true_eq_false, if_false, ite_false, reduceIte]
  rw [h3, ok_bind]
  simp [h4]

theorem isValid_of_bad_parts (p : Parameter) (fs : FS) (parts : List String)
    (h1 : p.isDatasetPathValid fs = true) (h2 : p.getMissingFolds fs = Except.ok [])
    (h3 : p.getFoldsWithInvalidWeights fs = Except.ok [])
    (h4 : p.configurationNameParts fs = some parts) (h5 : parts.length ≠ 3) :
    p.isValid fs = Except.ok (false, invalidConfigFolderReason) := by
  simp only [Parameter.isValid, h1, Bool.not_true, Bool.false_eq_true, if_false]
  rw [h2, ok_bind]
  simp only [ne_eq, not_true_eq_false, if_false, ite_false, reduceIte]
  rw [h3, ok_bind]
  simp only [ne_eq, not_true_eq_false, if_false, ite_false, reduceIte]
  rw [h4]
  simp [h5]

theorem isValid_of_all_pass (p : Parameter) (fs : FS) (parts : List String)
    (h1 : p.isDatasetPathValid fs = true) (h2 : p.getMissingFolds fs = Except.ok [])
    (h3 : p.getFoldsWithInvalidWeights fs = Except.ok [])
    (h4 : p.configurationNameParts fs = some parts) (h5 : parts.length = 3) :
    p.isValid fs = Except.ok (true, "") := by
  simp only [Parameter.isValid, h1, Bool.not_true, Bool.false_eq_true, if_false]
  rw [h2, ok_bind]
  simp only [ne_eq, not_true_eq_false, if_false, ite_false, reduceIte]
  rw [h3, ok_bind]
  simp only [ne_eq, not_true_eq_false, if_false, ite_false, reduceIte]
  rw [h4]
  simp [h5]

theorem isValid_ok_true_inv (p : Parameter) (fs : FS) (r : String)
    (h : p.isValid fs = Except.ok (true, r)) :
    r = "" ∧ p.isDatasetPathValid fs = true ∧
    p.getMissingFolds fs = Except.ok [] ∧
    p.getFoldsWithInvalidWeights fs = Except.ok [] ∧
    ∃ parts, p.configurationNameParts fs = some parts ∧ parts.length = 3 := by
  by_cases h1 : p.isDatasetPathValid fs = true
  · rw [Parameter.isValid] at h
    simp only [h1, Bool.not_true, Bool.false_eq_true, if_false] at h
    cases hm : p.getMissingFolds fs with
    | error e => rw [hm, error_bind] at h; exact absurd h (by simp)
    | ok m =>
      rw [hm, ok_bind] at h
      by_cases hm0 : m = []
      · subst hm0
        simp only [ne_eq, not_true_eq_false, if_false, ite_false, reduceIte] at h
        cases hw : p.getFoldsWithInvalidWeights fs with
        | error e => rw [hw, error_bind] at h; exact absurd h (by simp)
        | ok w =>
          rw [hw, ok_bind] at h
          by_cases hw0 : w = []
          · subst hw0
            simp only [ne_eq, not_true_eq_false, if_false, ite_false, reduceIte] at h
            cases hp : p.configurationNameParts fs with
            | none => rw [hp] at h; exact absurd h (by simp)
            | some parts =>
              rw [hp] at h
              by_cases hl : parts.length = 3
              · simp only [hl, ne_eq, not_true_eq_false, if_false, ite_false, reduceIte,
                  Except.ok.injEq, Prod.mk.injEq] at h
                exact ⟨h.2.symm, h1, rfl, rfl, parts, rfl, hl⟩
              · simp only [ne_eq, hl, not_false_eq_true, if_true, ite_true, reduceIte,
                  Except.ok.injEq, Prod.mk.injEq] at h
                exact absurd h.1 Bool.false_ne_true
          · simp only [ne_eq, hw0, not_false_eq_true, if_true, ite_true, reduceIte,
              Except.ok.injEq, Prod.mk.injEq] at h
            exact absurd h.1 Bool.false_ne_true
      · simp only [ne_eq, hm0, not_false_eq_true, if_true, ite_true, reduceIte,
          Except.ok.injEq, Prod.mk.injEq] at h
        exact absurd h.1 Bool.false_ne_true
  · have h1' : p.isDatasetPathValid fs = false := by
      cases hb : p.isDatasetPathValid fs
      · rfl
      · exact absurd hb h1
    rw [isValid_of_dataset_invalid p fs h1'] at h
    simp only [Except.ok.injEq, Prod.mk.injEq] at h
    exact absurd h.1 Bool.false_ne_true

end Parameter

/-! ### Concrete fixtures used by witnesses and counterexamples -/

/-- A filesystem with no entries at all (no `dataset.json` anywhere). -/
def fsEmpty : FS := { entries := [], content := fun _ => PyVal.null }

/-- A conventional configuration folder path. -/
def cfgPath : PyPath := ["models", "Dataset001_Test", "nnUNetTrainer__nnUNetPlans__3d_fullres"]

/-- A fully valid model tree: `dataset.json` (with a two-label mapping),
`fold_0` and its default checkpoint. -/
def fsGood : FS :=
  { entries := [
      ["models"],
      ["models", "Dataset001_Test"],
      cfgPath,
      cfgPath ++ ["dataset.json"],
      cfgPath ++ ["fold_0"],
      cfgPath ++ ["fold_0", "checkpoint_final.pth"]],
    content := fun p =>
      if p = cfgPath ++ ["dataset.json"] then
        PyVal.obj [("labels", PyVal.obj [("bone", PyVal.int 1), ("liver", PyVal.int 2)])]
      else PyVal.null }

/-- Same tree, but the `dataset.json` object has no `labels` key. -/
def fsNoLabels : FS :=
  { fsGood with content := fun p =>
      if p = cfgPath ++ ["dataset.json"] then PyVal.obj [("channel_names", PyVal.obj [])]
      else PyVal.null }

/-- A parameter pointing at the model tree above. -/
def pGood : Parameter := { modelPath := ["models"] }

/-! ### Claim theorems -/

/-- C2: `isValid()` performs its checks in the fixed order (1) `dataset.json`
found under `modelPath`, (2) every requested fold directory exists, (3) every
requested fold's checkpoint file exists, (4) the configuration folder name
splits into exactly 3 `__`-separated parts; it short-circuits with the
reason of the first failing check, and returns `(true, "")` only when all
checks pass. -/
theorem isValid_check_order (p : Parameter) (fs : FS) :
    (p.isDatasetPathValid fs = false →
      p.isValid fs = Except.ok (false, datasetMissingReason p)) ∧
    (∀ m, p.isDatasetPathValid fs = true →
      p.getMissingFolds fs = Except.ok m → m ≠ [] →
      p.isValid fs = Except.ok (false, missingFoldsReason m)) ∧
    (∀ w, p.isDatasetPathValid fs = true →
      p.getMissingFolds fs = Except.ok [] →
      p.getFoldsWithInvalidWeights fs = Except.ok w → w ≠ [] →
      p.isValid fs = Except.ok (false, invalidWeightsReason p w)) ∧
    (∀ parts, p.isDatasetPathValid fs = true →
      p.getMissingFolds fs = Except.ok [] →
      p.getFoldsWithInvalidWeights fs = Except.ok [] →
      p.configurationNameParts fs = some parts → parts.length ≠ 3 →
      p.isValid fs = Except.ok (false, invalidConfigFolderReason)) ∧
    (∀ parts, p.isDatasetPathValid fs = true →
      p.getMissingFolds fs = Except.ok [] →
      p.getFoldsWithInvalidWeights fs = Except.ok [] →
      p.configurationNameParts fs = some parts → parts.length = 3 →
      p.isValid fs = Except.ok (true, "")) ∧
    (∀ r, p.isValid fs = Except.ok (true, r) →
      r = "" ∧ p.isDatasetPathValid fs = true ∧
      p.getMissingFolds fs = Except.ok [] ∧
      p.getFoldsWithInvalidWeights fs = Except.ok [] ∧
      ∃ parts, p.configurationNameParts fs = some parts ∧ parts.length = 3) :=
  ⟨p.isValid_of_dataset_invalid fs,
   fun m => p.isValid_of_missing_folds fs m,
   fun w => p.isValid_of_invalid_weights fs w,
   fun parts => p.isValid_of_bad_parts fs parts,
   fun parts => p.isValid_of_all_pass fs parts,
   fun r => p.isValid_ok_true_inv fs r⟩

/-- Witness for C2: on a complete model tree all four checks pass and
`isValid` returns `(true, "")`. -/
theorem isValid_check_order_witness :
    pGood.isValid fsGood = Except.ok (true, "") :=
  (isValid_check_order pGood fsGood).2.2.2.2.1
    ["nnUNetTrainer", "nnUNetPlans", "3d_fullres"] rfl rfl rfl rfl rfl

/-! ### asArgList inversion helpers -/

theorem map_ok {ε α β : Type} (f : α → β) (a : α) :
    (Except.ok a : Except ε α).map f = Except.ok (f a) := rfl

theorem map_error {ε α β : Type} (f : α → β) (e : ε) :
    (Except.error e : Except ε α).map f = Except.error e := rfl

theorem mapM_ok_map {α β : Type} (g : α → β) (xs : List α) :
    xs.mapM (fun x => (Except.ok (g x) : Except String β)) = Except.ok (xs.map g) := by
  induction xs with
  | nil => rfl
  | cons x xs ih =>
    rw [List.mapM_cons, ok_bind, ih, ok_bind]
    rfl

namespace Parameter

theorem getMissingFolds_ok_inv (p : Parameter) (fs : FS) (m : List Int)
    (h : p.getMissingFolds fs = Except.ok m) :
    ∃ l, p.getFoldPaths fs = Except.ok l := by
  cases hfp : p.getFoldPaths fs with
  | error e =>
    rw [getMissingFolds, hfp, map_error] at h
    exact absurd h (by simp)
  | ok l => exact ⟨l, rfl⟩

theorem getFoldPaths_ok_inv (p : Parameter) (fs : FS) (l : List (Int × PyPath))
    (h : p.getFoldPaths fs = Except.ok l) :
    ∃ fl, p.foldsAsList = Except.ok fl := by
  cases hfl : p.foldsAsList with
  | error e =>
    rw [getFoldPaths, hfl, error_bind] at h
    exact absurd h (by simp)
  | ok fl => exact ⟨fl, rfl⟩

theorem datasetName_some_of_parts (p : Parameter) (fs : FS) (parts : List String)
    (h : p.configurationNameParts fs = some parts) :
    ∃ dsName, p.datasetName fs = some dsName := by
  cases hcf : p.configurationFolder fs with
  | none => rw [configurationNameParts, hcf] at h; exact absurd h (by simp)
  | some cf => exact ⟨cf.parent.name, by rw [datasetName, datasetFolder, hcf]; rfl⟩

/-- The exact argument list produced when validation succeeds. -/
def builtArgList (p : Parameter) (cuda : Bool) (inDir outDir : PyPath)
    (dsName tr pl conf : String) (fl : List Int) : List ArgV :=
  [ArgV.str "-i", ArgV.str inDir.str,
   ArgV.str "-o", ArgV.str outDir.str,
   ArgV.str "-d", ArgV.str dsName,
   ArgV.str "-tr", ArgV.str tr,
   ArgV.str "-p", ArgV.str pl,
   ArgV.str "-c", ArgV.str conf,
   ArgV.str "-f"] ++ fl.map (fun f => ArgV.str (toString f)) ++
  [ArgV.str "-npp", ArgV.int p.nProcessPreprocessing,
   ArgV.str "-nps", ArgV.int p.nProcessSegmentationExport,
   ArgV.str "-step_size", ArgV.float p.stepSize,
   ArgV.str "-device", ArgV.str (if cuda then p.device else "cpu"),
   ArgV.str "-chk", ArgV.str p.getCheckpointName] ++
  (if p.disableTta then [ArgV.str "--disable_tta"] else [])

theorem asArgList_of_isValid_error (p : Parameter) (fs : FS) (cuda : Bool)
    (inDir outDir : PyPath) (e : String) (h : p.isValid fs = Except.error e) :
    p.asArgList fs cuda inDir outDir = Except.error e := by
  rw [asArgList, h, error_bind]

theorem asArgList_of_isValid_false (p : Parameter) (fs : FS) (cuda : Bool)
    (inDir outDir : PyPath) (r : String) (h : p.isValid fs = Except.ok (false, r)) :
    p.asArgList fs cuda inDir outDir =
      Except.error ("Invalid nnUNet configuration. " ++ r) := by
  rw [asArgList, h, ok_bind]
  rfl

theorem asArgList_of_isValid_true (p : Parameter) (fs : FS) (cuda : Bool)
    (inDir outDir : PyPath) (h : p.isValid fs = Except.ok (true, "")) :
    ∃ dsName tr pl conf fl,
      p.datasetName fs = some dsName ∧ p.foldsAsList = Except.ok fl ∧
      p.asArgList fs cuda inDir outDir =
        Except.ok (p.builtArgList cuda inDir outDir dsName tr pl conf fl) := by
  obtain ⟨-, h1, hm, hw, parts, hp, hlen⟩ := p.isValid_ok_true_inv fs "" h
  obtain ⟨a, b, c, habc⟩ := List.length_eq_three.mp hlen
  subst habc
  obtain ⟨dsName, hdn⟩ := p.datasetName_some_of_parts fs _ hp
  obtain ⟨l, hl⟩ := p.getMissingFolds_ok_inv fs [] hm
  obtain ⟨fl, hfl⟩ := p.getFoldPaths_ok_inv fs l hl
  refine ⟨dsName, a, b, c, fl, hdn, hfl, ?_⟩
  rw [asArgList, h, ok_bind]
  simp only [Bool.not_true, Bool.false_eq_true, if_false, hdn, hp, hfl, ok_bind,
    List.head?_cons, List.get?, List.getLast?, reduceIte]
  rfl

end Parameter

/-- C1: `asArgList(inputDir, outputDir)` raises a single configuration error
whenever `isValid()` returns false — whatever the reason — and never returns
an argument list from an invalid configuration. -/
theorem asArgList_refuses_invalid (p : Parameter) (fs : FS) (cuda : Bool)
    (inDir outDir : PyPath) :
    (∀ r, p.isValid fs = Except.ok (false, r) →
      p.asArgList fs cuda inDir outDir =
        Except.error ("Invalid nnUNet configuration. " ++ r)) ∧
    (∀ args, p.asArgList fs cuda inDir outDir = Except.ok args →
      p.isValid fs = Except.ok (true, "")) := by
  constructor
  · exact fun r h => p.asArgList_of_isValid_false fs cuda inDir outDir r h
  · intro args h
    cases hv : p.isValid fs with
    | error e =>
      rw [p.asArgList_of_isValid_error fs cuda inDir outDir e hv] at h
      exact absurd h (by simp)
    | ok vr =>
      obtain ⟨b, r⟩ := vr
      cases b with
      | false =>
        rw [p.asArgList_of_isValid_false fs cuda inDir outDir r hv] at h
        exact absurd h (by simp)
      | true =>
        have hr := (p.isValid_ok_true_inv fs r hv).1
        rw [hr]

/-- Witness for C1: the default parameter over an empty filesystem is
invalid (missing `dataset.json`), and `asArgList` raises accordingly. -/
theorem asArgList_refuses_invalid_witness :
    Parameter.init.asArgList fsEmpty true [] [] =
      Except.error ("Invalid nnUNet configuration. " ++
        datasetMissingReason Parameter.init) :=
  (asArgList_refuses_invalid Parameter.init fsEmpty true [] []).1
    (datasetMissingReason Parameter.init) rfl

/-- C5: in the produced argument list, the value following the `-device`
flag is the configured device, downgraded to `"cpu"` whenever CUDA
acceleration is unavailable on the running machine
(`torch.cuda.is_available()` false), whatever device is configured; and the
downgrade has no effect on whether the configuration is accepted. -/
theorem asArgList_device_downgrade (p : Parameter) (fs : FS) (cuda : Bool)
    (inDir outDir : PyPath) :
    (∀ args, p.asArgList fs cuda inDir outDir = Except.ok args →
      ∃ pre post, args = pre ++
        [ArgV.str "-device", ArgV.str (if cuda then p.device else "cpu")] ++ post) ∧
    (∀ cuda₂ : Bool, (p.asArgList fs cuda inDir outDir).isOk =
      (p.asArgList fs cuda₂ inDir outDir).isOk) := by
  constructor
  · intro args h
    have hval : p.isValid fs = Except.ok (true, "") :=
      (asArgList_refuses_invalid p fs cuda inDir outDir).2 args h
    obtain ⟨dsName, tr, pl, conf, fl, -, -, hok⟩ :=
      p.asArgList_of_isValid_true fs cuda inDir outDir hval
    rw [hok] at h
    refine ⟨[ArgV.str "-i", ArgV.str inDir.str,
      ArgV.str "-o", ArgV.str outDir.str,
      ArgV.str "-d", ArgV.str dsName,
      ArgV.str "-tr", ArgV.str tr,
      ArgV.str "-p", ArgV.str pl,
      ArgV.str "-c", ArgV.str conf,
      ArgV.str "-f"] ++ fl.map (fun f => ArgV.str (toString f)) ++
      [ArgV.str "-npp", ArgV.int p.nProcessPreprocessing,
       ArgV.str "-nps", ArgV.int p.nProcessSegmentationExport,
       ArgV.str "-step_size", ArgV.float p.stepSize],
      [ArgV.str "-chk", ArgV.str p.getCheckpointName] ++
        (if p.disableTta then [ArgV.str "--disable_tta"] else []), ?_⟩
    have hargs : p.builtArgList cuda inDir outDir dsName tr pl conf fl = args := by
      injection h
    rw [← hargs]
    simp [Parameter.builtArgList]
  · intro cuda₂
    cases hv : p.isValid fs with
    | error e =>
      rw [p.asArgList_of_isValid_error fs cuda inDir outDir e hv,
        p.asArgList_of_isValid_error fs cuda₂ inDir outDir e hv]
    | ok vr =>
      obtain ⟨b, r⟩ := vr
      cases b with
      | false =>
        rw [p.asArgList_of_isValid_false fs cuda inDir outDir r hv,
          p.asArgList_of_isValid_false fs cuda₂ inDir outDir r hv]
      | true =>
        have hr := (p.isValid_ok_true_inv fs r hv).1
        subst hr
        obtain ⟨d1, t1, p1, c1, f1, -, -, hok1⟩ :=
          p.asArgList_of_isValid_true fs cuda inDir outDir hv
        obtain ⟨d2, t2, p2, c2, f2, -, -, hok2⟩ :=
          p.asArgList_of_isValid_true fs cuda₂ inDir outDir hv
        rw [hok1, hok2]
        rfl

/-- Witness for C5: on the valid fixture with CUDA unavailable, the argument
after `-device` is `"cpu"` although `"cuda"` is configured, and validity is
unchanged. -/
theorem asArgList_device_downgrade_witness :
    (pGood.asArgList fsGood false ["in"] ["out"]).isOk =
      (pGood.asArgList fsGood true ["in"] ["out"]).isOk ∧
    pGood.asArgList fsGood false ["in"] ["out"] =
      Except.ok ([ArgV.str "-i", ArgV.str "in", ArgV.str "-o", ArgV.str "out",
        ArgV.str "-d", ArgV.str "Dataset001_Test",
        ArgV.str "-tr", ArgV.str "nnUNetTrainer",
        ArgV.str "-p", ArgV.str "nnUNetPlans",
        ArgV.str "-c", ArgV.str "3d_fullres",
        ArgV.str "-f", ArgV.str "0",
        ArgV.str "-npp", ArgV.int 1, ArgV.str "-nps", ArgV.int 1,
        ArgV.str "-step_size", ArgV.float 0.5] ++
        [ArgV.str "-device", ArgV.str "cpu"] ++
        [ArgV.str "-chk", ArgV.str "checkpoint_final.pth",
         ArgV.str "--disable_tta"]) := by
  refine ⟨(asArgList_device_downgrade pGood fsGood false ["in"] ["out"]).2 true, ?_⟩
  obtain ⟨pre, post, -⟩ :=
    (asArgList_device_downgrade pGood fsGood false ["in"] ["out"]).1
      (pGood.builtArgList false ["in"] ["out"] "Dataset001_Test"
        "nnUNetTrainer" "nnUNetPlans" "3d_fullres" [0]) rfl
  rfl

/-- C6: the requested fold list is the comma-separated integers of the folds
text (`[0]` when the text is empty), and each requested fold `i` is checked
at `configuration folder / fold_<i>`. -/
theorem folds_decoding (p : Parameter) :
    (p.folds = "" → p.foldsAsList = Except.ok [0]) ∧
    (∀ ns, p.folds ≠ "" →
      (splitComma (pyStrip p.folds).data []).map pyInt? = ns.map some →
      p.foldsAsList = Except.ok ns) ∧
    (∀ fs cf ns, p.configurationFolder fs = some cf →
      p.foldsAsList = Except.ok ns →
      p.getFoldPaths fs = Except.ok (ns.map (fun i =>
        (i, cf.joinpath ("fold_" ++ toString i))))) := by
  refine ⟨?_, ?_, ?_⟩
  · intro h0
    simp [Parameter.foldsAsList, h0]
  · intro ns hne hmap
    rw [Parameter.foldsAsList, if_pos hne]
    exact mapM_ok_of_map_some _ pyInt? (fun a b hab => by rw [hab]) _ ns hmap
  · intro fs cf ns hcf hfl
    rw [Parameter.getFoldPaths, hfl, ok_bind]
    simp only [hcf]
    exact mapM_ok_map _ ns

/-- Witness for C6: folds text `"0,2"` decodes to `[0, 2]` and the fold
paths are `.../fold_0` and `.../fold_2` under the configuration folder. -/
theorem folds_decoding_witness :
    ({ pGood with folds := "0,2" } : Parameter).getFoldPaths fsGood =
      Except.ok [(0, cfgPath ++ ["fold_0"]), (2, cfgPath ++ ["fold_2"])] := by
  have h2 := (folds_decoding { pGood with folds := "0,2" }).2.1 [0, 2]
    (by decide) (by decide)
  have h3 := (folds_decoding { pGood with folds := "0,2" }).2.2 fsGood
    cfgPath [0, 2] rfl h2
  simpa using h3

/-- C8 counterexample: the claim says `isValid` never throws for every folds
text, but with a valid dataset tree and the whitespace folds text `" "`
(truthy, stripping to `""`), `int("")` raises `ValueError`, so `isValid`
raises instead of returning a pair. -/
theorem isValid_raises_on_blank_folds :
    ({ pGood with folds := " " } : Parameter).isValid fsGood =
      Except.error "ValueError: invalid literal for int() with base 10: " := rfl

/-- C8 amended: `isValid` never throws provided every comma-separated chunk
of the stripped folds text parses as a Python integer (or the folds text is
empty, its intended default); all validation failures then surface only in
the returned pair. -/
theorem isValid_total_for_intlike_folds (p : Parameter) (fs : FS)
    (h : p.folds = "" ∨
      ∀ c ∈ splitComma (pyStrip p.folds).data [], (pyInt? c).isSome = true) :
    ∃ b r, p.isValid fs = Except.ok (b, r) := by
  have hfl : ∃ fl, p.foldsAsList = Except.ok fl := by
    by_cases h0 : p.folds = ""
    · exact ⟨[0], by simp [Parameter.foldsAsList, h0]⟩
    · have hall := h.resolve_left h0
      rw [Parameter.foldsAsList, if_pos h0]
      apply mapM_ok_of_all
      intro x hx
      cases hp : pyInt? x with
      | none => exact absurd (hall x hx) (by rw [hp]; simp)
      | some n => exact ⟨n, rfl⟩
  obtain ⟨fl, hfl⟩ := hfl
  cases hd : p.isDatasetPathValid fs with
  | false => exact ⟨false, datasetMissingReason p, p.isValid_of_dataset_invalid fs hd⟩
  | true =>
    have hcf : ∃ cf, p.configurationFolder fs = some cf := by
      rw [Parameter.isDatasetPathValid, Option.isSome_iff_exists] at hd
      obtain ⟨dp, hdp⟩ := hd
      exact ⟨dp.parent, by simp [Parameter.configurationFolder, hdp]⟩
    obtain ⟨cf, hcf⟩ := hcf
    have hfp : p.getFoldPaths fs = Except.ok (fl.map (fun i =>
        (i, cf.joinpath ("fold_" ++ toString i)))) := by
      rw [Parameter.getFoldPaths, hfl, ok_bind]
      simp only [hcf]
      exact mapM_ok_map _ fl
    have hm : p.getMissingFolds fs = Except.ok ((fl.map (fun i =>
        (i, cf.joinpath ("fold_" ++ toString i)))).filter
          (fun fp => !(fs.exists fp.2)) |>.map Prod.fst) := by
      rw [Parameter.getMissingFolds, hfp, map_ok]
    have hw : p.getFoldsWithInvalidWeights fs = Except.ok ((fl.map (fun i =>
        (i, cf.joinpath ("fold_" ++ toString i)))).filter
          (fun fp => !(fs.exists (fp.2.joinpath p.getCheckpointName))) |>.map Prod.fst) := by
      rw [Parameter.getFoldsWithInvalidWeights, hfp, map_ok]
    by_cases hm0 : ((fl.map (fun i => (i, cf.joinpath ("fold_" ++ toString i)))).filter
        (fun fp => !(fs.exists fp.2)) |>.map Prod.fst) = []
    · rw [hm0] at hm
      by_cases hw0 : ((fl.map (fun i => (i, cf.joinpath ("fold_" ++ toString i)))).filter
          (fun fp => !(fs.exists (fp.2.joinpath p.getCheckpointName))) |>.map Prod.fst) = []
      · rw [hw0] at hw
        have hparts : p.configurationNameParts fs = some (splitDunder cf.name.data []) := by
          rw [Parameter.configurationNameParts, hcf, Option.map_some']
        by_cases hlen : (splitDunder cf.name.data []).length = 3
        · exact ⟨true, "", p.isValid_of_all_pass fs _ hd hm hw hparts hlen⟩
        · exact ⟨false, invalidConfigFolderReason,
            p.isValid_of_bad_parts fs _ hd hm hw hparts hlen⟩
      · exact ⟨false, _, p.isValid_of_invalid_weights fs _ hd hm hw hw0⟩
    · exact ⟨false, _, p.isValid_of_missing_folds fs _ hd hm hm0⟩

/-- Witness for C8 (amended): a parsable folds text over the valid tree
yields a returned pair. -/
theorem isValid_total_for_intlike_folds_witness :
    ∃ b r, ({ pGood with folds := "1" } : Parameter).isValid fsGood =
      Except.ok (b, r) :=
  isValid_total_for_intlike_folds { pGood with folds := "1" } fsGood
    (Or.inr (by decide))

/-- C4: `readSegmentIdsAndLabelsFromDatasetFile` returns `None` when no
`dataset.json` is found under `modelPath`; otherwise, for a file whose
`labels` mapping sends label names to ids, it returns the pairs
`("Segment_<id>", labelName)` in the iteration order of the mapping as read
from the file. -/
theorem readSegment_labels (p : Parameter) (fs : FS) :
    (p.datasetPath fs = none →
      p.readSegmentIdsAndLabelsFromDatasetFile fs = Except.ok none) ∧
    (∀ dp kvs lbls, p.datasetPath fs = some dp →
      fs.content dp = PyVal.obj kvs →
      kvs.lookup "labels" = some (PyVal.obj lbls) →
      p.readSegmentIdsAndLabelsFromDatasetFile fs =
        Except.ok (some (lbls.map (fun kv => ("Segment_" ++ pyStr kv.2, kv.1))))) := by
  constructor
  · intro h
    rw [Parameter.readSegmentIdsAndLabelsFromDatasetFile, h]
  · intro dp kvs lbls hdp hcontent hlbls
    simp only [Parameter.readSegmentIdsAndLabelsFromDatasetFile, hdp, hcontent, hlbls]

/-- Witness for C4: the spec's example file `("labels": ("bone": 1,
"liver": 2))` yields `[("Segment_1", "bone"), ("Segment_2", "liver")]`, and
the empty filesystem yields `None`. -/
theorem readSegment_labels_witness :
    pGood.readSegmentIdsAndLabelsFromDatasetFile fsGood =
      Except.ok (some [("Segment_1", "bone"), ("Segment_2", "liver")]) ∧
    Parameter.init.readSegmentIdsAndLabelsFromDatasetFile fsEmpty =
      Except.ok none := by
  constructor
  · have h := (readSegment_labels pGood fsGood).2 (cfgPath ++ ["dataset.json"])
      [("labels", PyVal.obj [("bone", PyVal.int 1), ("liver", PyVal.int 2)])]
      [("bone", PyVal.int 1), ("liver", PyVal.int 2)] rfl rfl rfl
    rw [h]
    rfl
  · exact (readSegment_labels Parameter.init fsEmpty).1 rfl

/-- C9: when a `dataset.json` is found but its object has no `labels` key,
`readSegmentIdsAndLabelsFromDatasetFile` raises (the `None` returned by
`dict.get` has no `.items()`) instead of returning `None` or an empty
list. -/
theorem readSegment_missing_labels_raises (p : Parameter) (fs : FS)
    (dp : PyPath) (kvs : List (String × PyVal)) (hdp : p.datasetPath fs = some dp)
    (hcontent : fs.content dp = PyVal.obj kvs)
    (hlbls : kvs.lookup "labels" = none) :
    p.readSegmentIdsAndLabelsFromDatasetFile fs =
      Except.error "AttributeError: NoneType object has no attribute items" := by
  simp only [Parameter.readSegmentIdsAndLabelsFromDatasetFile, hdp, hcontent, hlbls]

/-- Witness for C9: a `dataset.json` carrying only `channel_names` makes the
reader raise. -/
theorem readSegment_missing_labels_raises_witness :
    pGood.readSegmentIdsAndLabelsFromDatasetFile fsNoLabels =
      Except.error "AttributeError: NoneType object has no attribute items" :=
  readSegment_missing_labels_raises pGood fsNoLabels (cfgPath ++ ["dataset.json"])
    [("channel_names", PyVal.obj [])] rfl rfl rfl

/-- C10: the `if self.modelPath` guard in `_datasetPath` is never false
(paths are always truthy in Python), so the recursive search always runs —
for the default-constructed parameter it searches the whole current-directory
tree — and `None` arises only when no `dataset.json` lies under
`modelPath`. -/
theorem datasetPath_guard_never_false (p : Parameter) (fs : FS) :
    PyPath.truthy p.modelPath = true ∧
    p.datasetPath fs = fs.rglobFirst p.modelPath "dataset.json" ∧
    (p.datasetPath fs = none ↔
      ∀ q ∈ fs.entries, ¬(FS.under p.modelPath q = true ∧ q.name = "dataset.json")) ∧
    Parameter.init.modelPath = [] ∧
    Parameter.init.datasetPath fs =
      (fs.entries.filter (fun q => !q.isEmpty && q.name = "dataset.json")).head? := by
  refine ⟨rfl, rfl, ?_, rfl, ?_⟩
  · rw [Parameter.datasetPath, PyPath.truthy, if_pos rfl, FS.rglobFirst,
      List.head?_eq_none_iff, List.filter_eq_nil_iff]
    constructor
    · intro h q hq hcond
      have := h q hq
      simp only [Bool.and_eq_true, decide_eq_true_eq] at this
      exact this ⟨hcond.1, hcond.2⟩
    · intro h q hq
      simp only [Bool.and_eq_true, decide_eq_true_eq]
      exact fun hc => h q hq hc
  · rw [Parameter.datasetPath, PyPath.truthy, if_pos rfl, FS.rglobFirst]
    congr 1
    apply List.filter_congr
    intro q hq
    have hunder : FS.under Parameter.init.modelPath q = !q.isEmpty := by
      rw [FS.under]
      cases q with
      | nil => rfl
      | cons a l =>
        have hmp : Parameter.init.modelPath = [] := rfl
        simp [List.isPrefixOf, hmp]
    rw [hunder]

/-- Witness for C10: over the valid fixture, the default parameter (empty
`modelPath`, denoting the working directory) still finds the
`dataset.json`. -/
theorem datasetPath_guard_never_false_witness :
    Parameter.init.datasetPath fsGood =
      (fsGood.entries.filter (fun q => !q.isEmpty && q.name = "dataset.json")).head? :=
  (datasetPath_guard_never_false Parameter.init fsGood).2.2.2.2

/-! ### Settings round-trip -/

set_option maxHeartbeats 1000000 in
theorem applyHook_dumpedDict (p : Parameter) :
    applyHook p.dumpedDict = Except.ok (PyVal.obj [
      ("folds", PyVal.str p.folds),
      ("device", PyVal.str p.device),
      ("stepSize", PyVal.float p.stepSize),
      ("disableTta", PyVal.bool p.disableTta),
      ("nProcessPreprocessing", PyVal.int p.nProcessPreprocessing),
      ("nProcessSegmentationExport", PyVal.int p.nProcessSegmentationExport),
      ("checkPointName", PyVal.str p.checkPointName),
      ("modelPath", PyVal.path (PyPath.ofString p.modelPath.str))]) := by
  cases p
  rfl

theorem setValue_folds (inst : Parameter) (s : String) :
    inst.setValue "folds" (PyVal.str s) = Except.ok { inst with folds := s } := rfl

theorem setValue_device (inst : Parameter) (s : String) :
    inst.setValue "device" (PyVal.str s) = Except.ok { inst with device := s } := rfl

theorem setValue_stepSize (inst : Parameter) (q : Rat) :
    inst.setValue "stepSize" (PyVal.float q) = Except.ok { inst with stepSize := q } := rfl

theorem setValue_disableTta (inst : Parameter) (b : Bool) :
    inst.setValue "disableTta" (PyVal.bool b) = Except.ok { inst with disableTta := b } := rfl

theorem setValue_npp (inst : Parameter) (n : Int) :
    inst.setValue "nProcessPreprocessing" (PyVal.int n) =
      Except.ok { inst with nProcessPreprocessing := n } := rfl

theorem setValue_nps (inst : Parameter) (n : Int) :
    inst.setValue "nProcessSegmentationExport" (PyVal.int n) =
      Except.ok { inst with nProcessSegmentationExport := n } := rfl

theorem setValue_checkPointName (inst : Parameter) (s : String) :
    inst.setValue "checkPointName" (PyVal.str s) =
      Except.ok { inst with checkPointName := s } := rfl

theorem setValue_modelPath (inst : Parameter) (pth : PyPath) :
    inst.setValue "modelPath" (PyVal.path pth) =
      Except.ok { inst with modelPath := pth } := rfl

/-- C3: `toSettings` then `fromSettings` with the same key and store
reproduces every field exactly, `modelPath` included — restored as a path
(decoded from the tagged `("_path": ...)` object), not as a string. -/
theorem toSettings_fromSettings_roundtrip (p : Parameter) (settings : Settings)
    (key : String) (h : PyPath.WF p.modelPath = true) :
    Parameter.fromSettings (p.toSettings settings key) key = Except.ok p := by
  have hlk : (p.toSettings settings key).lookup (effKey key) = some p.dumpedDict := by
    simp [Parameter.toSettings, List.lookup_cons]
  simp only [Parameter.fromSettings, hlk]
  rw [applyHook_dumpedDict, ok_bind]
  simp only [List.foldl_cons, List.foldl_nil, setValue_folds, setValue_device,
    setValue_stepSize, setValue_disableTta, setValue_npp, setValue_nps,
    setValue_checkPointName, setValue_modelPath]
  rw [PyPath.ofString_str _ h]

/-- Witness for C3: the round trip at a concrete parameter, including a
nonempty `modelPath`. -/
theorem toSettings_fromSettings_roundtrip_witness :
    Parameter.fromSettings (pGood.toSettings [] "") "" = Except.ok pGood :=
  toSettings_fromSettings_roundtrip pGood [] "" (by decide)

/-- A stored settings entry holding an object with an unknown key and a
type-incompatible `folds` value, alongside a valid `device`. -/
def settingsWithJunk : Settings :=
  [("SlicerNNUNet/Parameter", PyVal.obj
    [("unknownKey", PyVal.int 1), ("folds", PyVal.int 2),
     ("device", PyVal.str "mps")])]

/-- C7 counterexample: the claim says `fromSettings` never fails for every
stored value, but a stored JSON value that is not an object (here the number
`5`) makes `.items()` raise, so `fromSettings` fails. -/
theorem fromSettings_nonobject_fails :
    Parameter.fromSettings [("SlicerNNUNet/Parameter", PyVal.int 5)] "" =
      Except.error "AttributeError: object has no attribute items" := rfl

/-- C7 amended: `fromSettings` never fails when the key is absent (all
defaults) or when the stored value decodes to an object: each item is then
assigned through `setValue`, and items with unknown keys or
type-incompatible values are skipped silently, leaving those fields at their
defaults.  (A stored value that is not a JSON object still fails.) -/
theorem fromSettings_best_effort (settings : Settings) (key : String) :
    (settings.lookup (effKey key) = none →
      Parameter.fromSettings settings key = Except.ok Parameter.init) ∧
    (∀ v kvs, settings.lookup (effKey key) = some v →
      applyHook v = Except.ok (PyVal.obj kvs) →
      Parameter.fromSettings settings key = Except.ok
        (kvs.foldl (fun (inst : Parameter) (kv : String × PyVal) =>
          match inst.setValue kv.1 kv.2 with
          | Except.ok inst' => inst'
          | Except.error _ => inst) Parameter.init)) ∧
    (∀ (inst : Parameter) (k : String) (w : PyVal),
      (inst.setValue k w).isOk = false →
      (match inst.setValue k w with
       | Except.ok inst' => inst'
       | Except.error _ => inst) = inst) := by
  refine ⟨?_, ?_, ?_⟩
  · intro h
    simp only [Parameter.fromSettings, h]
  · intro v kvs hv hhook
    simp only [Parameter.fromSettings, hv]
    rw [hhook, ok_bind]
  · intro inst k w hsv
    cases h : inst.setValue k w with
    | ok inst' => rw [h] at hsv; exact absurd hsv (by simp [Except.isOk, Except.toBool])
    | error e => rfl

/-- Witness for C7 (amended): restoring `settingsWithJunk` succeeds, applies
the valid `device`, and leaves the unknown key and the mistyped `folds`
skipped at defaults. -/
theorem fromSettings_best_effort_witness :
    Parameter.fromSettings settingsWithJunk "" =
      Except.ok { Parameter.init with device := "mps" } := by
  have h := (fromSettings_best_effort settingsWithJunk "").2.1
    (PyVal.obj [("unknownKey", PyVal.int 1), ("folds", PyVal.int 2),
      ("device", PyVal.str "mps")])
    [("unknownKey", PyVal.int 1), ("folds", PyVal.int 2),
      ("device", PyVal.str "mps")] rfl rfl
  rw [h]
  rfl
